import Mathlib

/-!
Shallow embedding of the auth-verification-service backend core:
the account data model (`user.model.js`), the store operations used by the
controllers (Mongoose `findOne` / `findById` / `save` on a document list),
the token utilities (`generateToken.js`), the route-wired controllers
(`auth.controller.js`, `emailVerification.controller.js`,
`password.controller.js`, `checkAuth.controller.js`) and the
`protectRoute` middleware, together with theorems settling the
specification claims about them.

Conventions: timestamps are `Nat` milliseconds (`Date.now()`); the bcrypt
digest is modelled as an opaque salt/plaintext pair whose only observable
operation is `bcryptCompare`; a Mongo query condition `{ field: v }` on an
optional field is membership of `some v`; `{ $gt: now }` requires the field
to be present and greater than `now`.  Request handlers are pure functions
from the store and the request data (plus the values the real code draws
from the environment: generated tokens, the bcrypt salt, `Date.now()`, the
JWT secret, the fresh document id) to a response, the resulting store, and
the ordered list of side effects they performed.
-/

namespace AuthService

/-- Model of a bcrypt digest: the salt and the hashed plaintext are kept
abstract; `bcryptCompare` is the only observation. -/
structure Digest where
  salt : Nat
  plain : String
deriving Repr, DecidableEq

/-- `bcrypt.hash(plaintext, salt)`. -/
def bcryptHash (salt : Nat) (plaintext : String) : Digest :=
  ⟨salt, plaintext⟩

/-- `bcrypt.compare(plaintext, digest)`: true exactly when the plaintext
matches the one that was hashed; never throws on mismatch. -/
def bcryptCompare (plaintext : String) (digest : Digest) : Bool :=
  plaintext == digest.plain

/-- The `User` document of `user.model.js`.  Optional schema fields
(`resetPasswordToken`, `resetPasswordExpires`, `verificationToken`,
`verificationTokenExpires`) are `Option`s; clearing a field
(`user.field = undefined` in the source) sets it to `none`. -/
structure Account where
  id : Nat
  email : String
  password : Digest
  name : String
  lastLogin : Nat
  isVerified : Bool
  resetPasswordToken : Option String := none
  resetPasswordExpires : Option Nat := none
  verificationToken : Option String := none
  verificationTokenExpires : Option Nat := none
deriving Repr, DecidableEq

/-- The store: the `users` collection in insertion order. -/
abbrev Store := List Account

/-- `User.findOne({ email })`. -/
def findByEmail (st : Store) (email : String) : Option Account :=
  st.find? (fun u => u.email == email)

/-- `User.findById(id)`. -/
def findById (st : Store) (id : Nat) : Option Account :=
  st.find? (fun u => u.id == id)

/-- Predicate of the query
`{ verificationToken: tok, verificationTokenExpires: { $gt: now } }`. -/
def verificationQuery (tok : String) (now : Nat) (u : Account) : Bool :=
  u.verificationToken == some tok &&
    match u.verificationTokenExpires with
    | some e => decide (now < e)
    | none => false

/-- `User.findOne({ verificationToken, verificationTokenExpires: { $gt: Date.now() } })`. -/
def findByVerificationToken (st : Store) (tok : String) (now : Nat) : Option Account :=
  st.find? (verificationQuery tok now)

/-- Predicate of the query
`{ resetPasswordToken: tok, resetPasswordExpires: { $gt: now } }`. -/
def resetQuery (tok : String) (now : Nat) (u : Account) : Bool :=
  u.resetPasswordToken == some tok &&
    match u.resetPasswordExpires with
    | some e => decide (now < e)
    | none => false

/-- `User.findOne({ resetPasswordToken, resetPasswordExpires: { $gt: Date.now() } })`. -/
def findByResetToken (st : Store) (tok : String) (now : Nat) : Option Account :=
  st.find? (resetQuery tok now)

/-- The schema validators of `user.model.js` that `save()` runs: `email`
trimmed/≤50 chars, `name` 2–30 chars.  The schema declares **no**
uniqueness constraint on `email`. -/
def schemaValid (u : Account) : Bool :=
  u.email.length ≤ 50 && 2 ≤ u.name.length && u.name.length ≤ 30

/-- Result of `document.save()` on a new document. -/
inductive SaveResult
  | ok (st : Store)
  | validationError
deriving Repr, DecidableEq

/-- `newUser.save()`: runs the schema validators and appends the document.
There is no store-level duplicate-email rejection, because the schema has
no `unique` index on `email`. -/
def storeInsert (st : Store) (u : Account) : SaveResult :=
  if schemaValid u then .ok (st ++ [u]) else .validationError

/-- `user.save()` on a fetched document: replaces the stored document with
the mutated one (matched by `_id`). -/
def updateAccount (st : Store) (u : Account) : Store :=
  st.map (fun v => if v.id == u.id then u else v)

/-- JWT claims as produced by `jwt.sign({ id, name }, secret, { expiresIn })`:
the payload `id` (absent on a malformed payload) and `name`, plus the `exp`
claim. -/
structure JwtClaims where
  id : Option Nat
  name : String
  exp : Nat
deriving Repr, DecidableEq

/-- A signed token: claims plus the secret it was signed with (signature
validity is modelled as secret equality). -/
structure Jwt where
  claims : JwtClaims
  signedWith : String
deriving Repr, DecidableEq

/-- `jwt.sign(claims, secret)`. -/
def jwtSign (claims : JwtClaims) (secret : String) : Jwt :=
  ⟨claims, secret⟩

/-- Outcome of `jwt.verify`: the decoded claims, or a thrown error whose
`name` is `JsonWebTokenError` (bad signature / malformed) or
`TokenExpiredError` (signature valid, `exp` elapsed). -/
inductive JwtVerifyResult
  | ok (claims : JwtClaims)
  | err (errorName : String)
deriving Repr, DecidableEq

/-- `jwt.verify(token, secret)`: signature first, then expiry. -/
def jwtVerify (t : Jwt) (secret : String) (now : Nat) : JwtVerifyResult :=
  if t.signedWith ≠ secret then .err "JsonWebTokenError"
  else if t.claims.exp ≤ now then .err "TokenExpiredError"
  else .ok t.claims

/-- The 14-day session validity window of `generateTokenAndSetCookie`. -/
def sessionTtlMs : Nat := 14 * 24 * 60 * 60 * 1000

/-- The JWT built by `generateTokenAndSetCookie(user, res)`. -/
def sessionTokenFor (u : Account) (secret : String) (now : Nat) : Jwt :=
  jwtSign ⟨some u.id, u.name, now + sessionTtlMs⟩ secret

/-- The user object serialized in a JSON response: every schema field, each
one possibly absent (spreading `{...user._doc, field: undefined}` removes
the key from the JSON output). -/
structure ClientUser where
  id : Nat
  email : String
  password : Option Digest
  name : String
  lastLogin : Nat
  isVerified : Bool
  resetPasswordToken : Option String
  resetPasswordExpires : Option Nat
  verificationToken : Option String
  verificationTokenExpires : Option Nat
deriving Repr, DecidableEq

/-- `user._doc` spread into a response object, before any redaction. -/
def toClientDoc (u : Account) : ClientUser :=
  { id := u.id, email := u.email, password := some u.password,
    name := u.name, lastLogin := u.lastLogin, isVerified := u.isVerified,
    resetPasswordToken := u.resetPasswordToken,
    resetPasswordExpires := u.resetPasswordExpires,
    verificationToken := u.verificationToken,
    verificationTokenExpires := u.verificationTokenExpires }

/-- An HTTP JSON response: status code, `message` field, optional `user`
payload. -/
structure Response where
  status : Nat
  message : String
  user : Option ClientUser := none
deriving Repr, DecidableEq

/-- Observable side effects of a handler, in execution order. -/
inductive Effect
  | setCookie (token : Jwt)
  | clearCookie
  | savedUser (u : Account)
  | emailSent (kind : String) (rcpt : String)
deriving Repr, DecidableEq

/-- A handler's outcome: the response sent, the store after the request,
and the side effects in order. -/
structure OpResult where
  response : Response
  store : Store
  effects : List Effect
deriving Repr, DecidableEq

/-- The new `User` document built inside `signup`. -/
def mkSignupUser (email : String) (hashedPassword : Digest) (name : String)
    (verificationToken : String) (now : Nat) (newId : Nat) : Account :=
  { id := newId, email := email, password := hashedPassword, name := name,
    lastLogin := now, isVerified := false,
    verificationToken := some verificationToken,
    verificationTokenExpires := some (now + 24 * 60 * 60 * 1000) }

/-- `signup` of `auth.controller.js` (the handler wired to
`POST /api/auth/signup`): presence check on the body fields, app-level
duplicate-email check, hash, build the document, set the session cookie,
then `save()`, then the verification email; a `ValidationError` thrown by
`save()` is caught and answered with 400. -/
def signup (st : Store) (email password name : String) (salt : Nat)
    (verificationToken : String) (secret : String) (now : Nat) (newId : Nat) :
    OpResult :=
  if email.isEmpty || password.isEmpty || name.isEmpty then
    ⟨⟨400, "All fields are required", none⟩, st, []⟩
  else
    match findByEmail st email with
    | some _ => ⟨⟨409, "Email already exists", none⟩, st, []⟩
    | none =>
      let hashedPassword := bcryptHash salt password
      let newUser := mkSignupUser email hashedPassword name verificationToken now newId
      let jwtToken := sessionTokenFor newUser secret now
      match storeInsert st newUser with
      | .validationError =>
        ⟨⟨400, "User validation failed", none⟩, st, [.setCookie jwtToken]⟩
      | .ok st' =>
        ⟨⟨201, "User registered successfully",
            some { (toClientDoc newUser) with
                    password := none, verificationToken := none,
                    verificationTokenExpires := none }⟩,
          st',
          [.setCookie jwtToken, .savedUser newUser,
            .emailSent "verification" newUser.email]⟩

/-- `verifyEmail` of `emailVerification.controller.js` /
`auth.controller.js` (identical logic, wired to `POST /api/auth/verify-email`). -/
def verifyEmail (st : Store) (verificationToken : String) (now : Nat) : OpResult :=
  match findByVerificationToken st verificationToken now with
  | none => ⟨⟨400, "Invalid or expired verification token", none⟩, st, []⟩
  | some user =>
    let updated :=
      { user with isVerified := true, verificationToken := none,
                  verificationTokenExpires := none }
    ⟨⟨200, "Email verified successfully",
        some { (toClientDoc updated) with password := none }⟩,
      updateAccount st updated,
      [.savedUser updated, .emailSent "welcome" updated.email]⟩

/-- `login` of `auth.controller.js` (the handler wired to
`POST /api/auth/login`).  Note the two distinct 401 messages, and that
`user.lastLogin = Date.now()` mutates the in-memory document only — there
is no `user.save()` call, so the store is returned unchanged. -/
def login (st : Store) (email password : String) (secret : String) (now : Nat) :
    OpResult :=
  match findByEmail st email with
  | none => ⟨⟨401, "Invalid email or password", none⟩, st, []⟩
  | some user =>
    if !bcryptCompare password user.password then
      ⟨⟨401, "Invalid username or password", none⟩, st, []⟩
    else
      let token := sessionTokenFor user secret now
      let updated := { user with lastLogin := now }
      ⟨⟨200, "Login successful",
          some { (toClientDoc updated) with password := none }⟩,
        st, [.setCookie token]⟩

/-- `login` of `login.controller.js` (present in the repository but not
wired into `auth.routes.js`): uniform 401 message for both failure halves,
and `await user.save()` after updating `lastLogin`. -/
def loginAlt (st : Store) (email password : String) (secret : String) (now : Nat) :
    OpResult :=
  match findByEmail st email with
  | none => ⟨⟨401, "Invalid email or password", none⟩, st, []⟩
  | some user =>
    if !bcryptCompare password user.password then
      ⟨⟨401, "Invalid email or password", none⟩, st, []⟩
    else
      let token := sessionTokenFor user secret now
      let updated := { user with lastLogin := now }
      ⟨⟨200, "Login successful",
          some { (toClientDoc updated) with password := none }⟩,
        updateAccount st updated,
        [.setCookie token, .savedUser updated]⟩

/-- `logout` of `auth.controller.js`: clears the cookie, no store access. -/
def logout (st : Store) : OpResult :=
  ⟨⟨200, "Logout successful", none⟩, st, [.clearCookie]⟩

/-- `forgotPassword` of `password.controller.js` / `auth.controller.js`
(wired to `POST /api/auth/forgot-password`): sets both reset fields with a
1-hour expiry and saves. -/
def forgotPassword (st : Store) (email : String) (resetToken : String) (now : Nat) :
    OpResult :=
  match findByEmail st email with
  | none => ⟨⟨404, "User not found", none⟩, st, []⟩
  | some user =>
    let updated :=
      { user with resetPasswordToken := some resetToken,
                  resetPasswordExpires := some (now + 60 * 60 * 1000) }
    ⟨⟨200, "Password reset email sent", none⟩,
      updateAccount st updated,
      [.savedUser updated, .emailSent "passwordReset" updated.email]⟩

/-- `resetPassword` of `password.controller.js` (wired to
`POST /api/auth/reset-password/:token`): length check before any store
access; on a token match, replaces the password digest and clears both
reset fields in one save. -/
def resetPassword (st : Store) (token : String) (password : String)
    (salt : Nat) (now : Nat) : OpResult :=
  if password.isEmpty || password.length < 6 then
    ⟨⟨400, "Password must be at least 6 characters", none⟩, st, []⟩
  else
    match findByResetToken st token now with
    | none => ⟨⟨404, "Invalid or expired token", none⟩, st, []⟩
    | some user =>
      let updated :=
        { user with password := bcryptHash salt password,
                    resetPasswordToken := none, resetPasswordExpires := none }
      ⟨⟨200, "Password reset successfully", none⟩,
        updateAccount st updated,
        [.savedUser updated, .emailSent "resetSuccess" updated.email]⟩

/-- `checkAuth` of `checkAuth.controller.js` (wired behind `protectRoute`
on `GET /api/auth/check-auth`): `findById(req.userId).select("-password")`. -/
def checkAuth (st : Store) (userId : Nat) : Response :=
  match findById st userId with
  | none => ⟨404, "User not found", none⟩
  | some user => ⟨200, "", some { (toClientDoc user) with password := none }⟩

/-- Outcome of the `protectRoute` middleware: an early error response, or
passing control on with `req.userId` set. -/
inductive AuthCheck
  | resp (r : Response)
  | proceed (userId : Nat)
deriving Repr, DecidableEq

/-- `protectRoute` of `protectRoute.js`: 401 when no cookie token; a single
catch-all 403 `"Forbidden access"` when `jwt.verify` throws (bad signature,
malformed, or expired alike); 403 `"Unauthorized - Invalid token"` when the
decoded payload has no `id`; otherwise proceed with the decoded id. -/
def protectRoute (cookie : Option Jwt) (secret : String) (now : Nat) : AuthCheck :=
  match cookie with
  | none => .resp ⟨401, "Unauthorized - No token provided", none⟩
  | some t =>
    match jwtVerify t secret now with
    | .err _ => .resp ⟨403, "Forbidden access", none⟩
    | .ok claims =>
      match claims.id with
      | none => .resp ⟨403, "Unauthorized - Invalid token", none⟩
      | some i => .proceed i

/-- Spec-side check: the response's user payload, if any, has no
`password` field. -/
def passwordRedacted (r : Option ClientUser) : Bool :=
  match r with
  | none => true
  | some cu => cu.password == none

/-- Spec-side check: the response's user payload, if any, contains none of
`password`, `verificationToken`, `resetPasswordToken`, or their expiries. -/
def sensitiveRedacted (r : Option ClientUser) : Bool :=
  match r with
  | none => true
  | some cu =>
    cu.password == none && cu.verificationToken == none &&
      cu.verificationTokenExpires == none &&
      cu.resetPasswordToken == none && cu.resetPasswordExpires == none

/-- Spec-side check on one account: verification token and its expiry both
present or both absent, and likewise the reset pair. -/
def tokenPairing (u : Account) : Bool :=
  (u.verificationToken.isSome == u.verificationTokenExpires.isSome) &&
    (u.resetPasswordToken.isSome == u.resetPasswordExpires.isSome)

/-- Spec-side check across a transition: every account of `st'` whose id
carried `isVerified = true` in `st` still has `isVerified = true`. -/
def preservesVerified (st st' : Store) : Bool :=
  st'.all (fun v => !(st.any (fun u => u.id == v.id && u.isVerified)) || v.isVerified)

/-- Fixture: an unverified account with a pending verification code. -/
def annPending : Account :=
  { id := 1, email := "a@x.com", password := ⟨7, "secret1"⟩, name := "Ann",
    lastLogin := 111, isVerified := false,
    verificationToken := some "123456", verificationTokenExpires := some 2000 }

/-- Fixture: a second account carrying the same email as `annPending`. -/
def bobDup : Account :=
  { id := 2, email := "a@x.com", password := ⟨3, "hunter2"⟩, name := "Bob",
    lastLogin := 0, isVerified := false }

/-- Fixture: a verified account with a pending, unexpired reset token. -/
def annReset : Account :=
  { id := 1, email := "a@x.com", password := ⟨7, "secret1"⟩, name := "Ann",
    lastLogin := 111, isVerified := true,
    resetPasswordToken := some "abcd", resetPasswordExpires := some 2000 }

/-- Fixture: a session token signed with the wrong secret. -/
def badSigTok : Jwt := ⟨⟨some 1, "Ann", 1000⟩, "evil"⟩

/-- Fixture: a correctly signed session token whose expiry has elapsed at
time 100. -/
def expiredTok : Jwt := ⟨⟨some 1, "Ann", 10⟩, "sec"⟩

/-- Fixture: a correctly signed, unexpired token whose payload lacks `id`. -/
def noIdTok : Jwt := ⟨⟨none, "Ann", 1000⟩, "sec"⟩

/-- Fixture: a correctly signed, unexpired token for account 1. -/
def goodTok : Jwt := ⟨⟨some 1, "Ann", 1000⟩, "sec"⟩

theorem mem_updateAccount {st : Store} {u v : Account}
    (h : v ∈ updateAccount st u) :
    v = u ∨ ((v.id == u.id) = false ∧ v ∈ st) := by
  simp only [updateAccount, List.mem_map] at h
  obtain ⟨w, hw, hv⟩ := h
  by_cases hid : (w.id == u.id) = true
  · left; rw [← hv, if_pos hid]
  · right
    rw [Bool.not_eq_true] at hid
    rw [← hv, if_neg (by simp [hid])]
    exact ⟨hid, hw⟩

theorem all_updateAccount {P : Account → Bool} {st : Store} {u : Account}
    (hst : st.all P = true) (hu : P u = true) :
    (updateAccount st u).all P = true := by
  rw [List.all_eq_true] at hst ⊢
  intro v hv
  rcases mem_updateAccount hv with rfl | ⟨_, hmem⟩
  · exact hu
  · exact hst v hmem

theorem preservesVerified_self (st : Store)
    (hinj : ∀ u ∈ st, ∀ v ∈ st, u.id = v.id → u = v) :
    preservesVerified st st = true := by
  simp only [preservesVerified, List.all_eq_true]
  intro v hv
  rw [Bool.or_eq_true]
  by_cases h : st.any (fun u => u.id == v.id && u.isVerified) = true
  · right
    obtain ⟨u, hu, huv⟩ := List.any_eq_true.mp h
    rw [Bool.and_eq_true, beq_iff_eq] at huv
    rw [← hinj u hu v hv huv.1]
    exact huv.2
  · left
    rw [Bool.not_eq_true] at h
    simp [h]

theorem preservesVerified_append (st : Store) (u : Account)
    (hinj : ∀ a ∈ st, ∀ b ∈ st, a.id = b.id → a = b)
    (hfresh : ∀ v ∈ st, (v.id == u.id) = false) :
    preservesVerified st (st ++ [u]) = true := by
  have hself := preservesVerified_self st hinj
  simp only [preservesVerified, List.all_eq_true] at hself ⊢
  intro v hv
  rcases List.mem_append.mp hv with hv' | hv'
  · exact hself v hv'
  · rw [List.mem_singleton.mp hv', Bool.or_eq_true]
    left
    rw [Bool.not_eq_true', ← Bool.not_eq_true]
    intro hany
    obtain ⟨w, hw, hww⟩ := List.any_eq_true.mp hany
    rw [Bool.and_eq_true] at hww
    have := hfresh w hw
    rw [hww.1] at this
    simp at this

theorem preservesVerified_update (st : Store) (user updated : Account)
    (hinj : ∀ a ∈ st, ∀ b ∈ st, a.id = b.id → a = b)
    (huser : user ∈ st) (hid : updated.id = user.id)
    (hmono : user.isVerified = true → updated.isVerified = true) :
    preservesVerified st (updateAccount st updated) = true := by
  simp only [preservesVerified, List.all_eq_true]
  intro v hv
  rw [Bool.or_eq_true]
  by_cases h : st.any (fun u => u.id == v.id && u.isVerified) = true
  · right
    obtain ⟨u, hu, huv⟩ := List.any_eq_true.mp h
    rw [Bool.and_eq_true, beq_iff_eq] at huv
    rcases mem_updateAccount hv with rfl | ⟨_, hmem⟩
    · apply hmono
      rw [hid] at huv
      rw [← hinj u hu user huser huv.1]
      exact huv.2
    · rw [← hinj u hu v hmem huv.1]
      exact huv.2
  · left
    rw [Bool.not_eq_true] at h
    simp [h]

/-- C1, counterexample: a successful Login of an account holding a pending
verification code returns a 200 response whose user object still contains
`verificationToken` and its expiry — the claim that every public success
response contains none of the sensitive fields is false on the code. -/
theorem c1_counterexample :
    (login [annPending] "a@x.com" "secret1" "sec" 500).response.status = 200 ∧
    sensitiveRedacted
        (login [annPending] "a@x.com" "secret1" "sec" 500).response.user = false ∧
    ((login [annPending] "a@x.com" "secret1" "sec" 500).response.user.map
        (fun cu => cu.verificationToken)) = some (some "123456") := by
  decide

/-- C1, amended: every success response of Register, Login, VerifyEmail and
CheckAuth redacts the password hash, and the Register response additionally
redacts the verification and reset token fields; Login, VerifyEmail and
CheckAuth redact only the password, so stored token fields can appear in
their responses. -/
theorem c1_amended_redaction (st : Store)
    (email password name verificationToken secret : String)
    (salt now newId userId : Nat) :
    sensitiveRedacted (signup st email password name salt verificationToken
        secret now newId).response.user = true ∧
    passwordRedacted (login st email password secret now).response.user = true ∧
    passwordRedacted (verifyEmail st verificationToken now).response.user = true ∧
    passwordRedacted (checkAuth st userId).user = true := by
  refine ⟨?_, ?_, ?_, ?_⟩
  · unfold signup
    dsimp only
    repeat' split
    all_goals rfl
  · unfold login
    dsimp only
    repeat' split
    all_goals rfl
  · unfold verifyEmail
    dsimp only
    repeat' split
    all_goals rfl
  · unfold checkAuth
    dsimp only
    repeat' split
    all_goals rfl

/-- C2, counterexample: the store itself accepts a duplicate insert — a
second account with an email already present saves fine, because the schema
declares no uniqueness constraint on `email`; only the application-level
check in `signup` guards duplicates. -/
theorem c2_counterexample :
    storeInsert [annPending] bobDup = .ok [annPending, bobDup] ∧
    bobDup.email = annPending.email ∧ bobDup.id ≠ annPending.id := by
  decide

/-- C2, amended: Register with nonempty fields and an email already in the
store fails with ConflictError (409, "Email already exists") and leaves the
store unchanged, via the application-level existence check; the store-level
uniqueness part of the claim fails (see the counterexample). -/
theorem c2_amended_conflict (st : Store)
    (email password name verificationToken secret : String)
    (salt now newId : Nat)
    (hfields : (email.isEmpty || password.isEmpty || name.isEmpty) = false)
    (hdup : (findByEmail st email).isSome = true) :
    (signup st email password name salt verificationToken secret now
        newId).response.status = 409 ∧
    (signup st email password name salt verificationToken secret now
        newId).response.message = "Email already exists" ∧
    (signup st email password name salt verificationToken secret now
        newId).store = st := by
  obtain ⟨u, hu⟩ := Option.isSome_iff_exists.mp hdup
  simp [signup, hfields, hu]

/-- Witness for C2: the amended statement holds at a concrete duplicate
registration. -/
theorem c2_amended_conflict_witness :
    (signup [annPending] "a@x.com" "hunter2" "Bob" 3 "111111" "sec" 50
        2).response.status = 409 ∧
    (signup [annPending] "a@x.com" "hunter2" "Bob" 3 "111111" "sec" 50
        2).response.message = "Email already exists" ∧
    (signup [annPending] "a@x.com" "hunter2" "Bob" 3 "111111" "sec" 50
        2).store = [annPending] :=
  c2_amended_conflict [annPending] "a@x.com" "hunter2" "Bob" "111111" "sec"
    3 50 2 (by decide) (by decide)

/-- C3: the wired Login is not uniform across the two failure halves — an
absent email answers 401 "Invalid email or password" while a present email
with a wrong password answers 401 "Invalid username or password", so the
caller can tell which half failed; the unwired `login.controller.js`
variant (`loginAlt`) uses one identical message for both, showing the
uniform behaviour is the intent and the divergence a slip. -/
theorem c3_nonuniform_login_errors :
    (login [annPending] "b@x.com" "secret1" "sec" 500).response.status = 401 ∧
    (login [annPending] "a@x.com" "wrong" "sec" 500).response.status = 401 ∧
    (login [annPending] "b@x.com" "secret1" "sec" 500).response.message =
      "Invalid email or password" ∧
    (login [annPending] "a@x.com" "wrong" "sec" 500).response.message =
      "Invalid username or password" ∧
    (login [annPending] "b@x.com" "secret1" "sec" 500).response.message ≠
      (login [annPending] "a@x.com" "wrong" "sec" 500).response.message ∧
    (loginAlt [annPending] "b@x.com" "secret1" "sec" 500).response.message =
      (loginAlt [annPending] "a@x.com" "wrong" "sec" 500).response.message := by
  decide

/-- C4, counterexample: a token signed with the wrong secret and a
correctly signed but expired token produce the *same* result from
`protectRoute` — one catch-all 403 "Forbidden access" — even though
`jwt.verify` raises differently named errors; the invalid-versus-expired
distinction is not preserved in the validator result. -/
theorem c4_counterexample :
    protectRoute (some badSigTok) "sec" 100 =
      protectRoute (some expiredTok) "sec" 100 ∧
    protectRoute (some expiredTok) "sec" 100 =
      .resp ⟨403, "Forbidden access", none⟩ ∧
    jwtVerify badSigTok "sec" 100 = .err "JsonWebTokenError" ∧
    jwtVerify expiredTok "sec" 100 = .err "TokenExpiredError" := by
  decide

/-- C4, amended: session validation fails with 401 "Unauthorized - No token
provided" exactly when no token is presented; any presented token whose
signature is bad or whose expiry has elapsed yields the single uniform 403
"Forbidden access" (invalid and expired are not distinguished in the
result); a verified token without an `id` claim yields 403
"Unauthorized - Invalid token"; otherwise validation proceeds with the
decoded account id. -/
theorem c4_amended_validation (cookie : Option Jwt) (secret : String) (now : Nat) :
    (cookie = none →
      protectRoute cookie secret now =
        .resp ⟨401, "Unauthorized - No token provided", none⟩) ∧
    (∀ t, cookie = some t → (t.signedWith ≠ secret ∨ t.claims.exp ≤ now) →
      protectRoute cookie secret now = .resp ⟨403, "Forbidden access", none⟩) ∧
    (∀ t, cookie = some t → t.signedWith = secret → now < t.claims.exp →
      t.claims.id = none →
      protectRoute cookie secret now =
        .resp ⟨403, "Unauthorized - Invalid token", none⟩) ∧
    (∀ t i, cookie = some t → t.signedWith = secret → now < t.claims.exp →
      t.claims.id = some i →
      protectRoute cookie secret now = .proceed i) := by
  refine ⟨?_, ?_, ?_, ?_⟩
  · intro h; rw [h]; rfl
  · intro t ht hbad
    rw [ht]
    by_cases hs : t.signedWith = secret
    · rcases hbad with hbad | hexp
      · exact absurd hs hbad
      · simp [protectRoute, jwtVerify, hs, hexp]
    · simp [protectRoute, jwtVerify, hs]
  · intro t ht hs hexp hid
    rw [ht]
    simp [protectRoute, jwtVerify, hs, Nat.not_le.mpr hexp, hid]
  · intro t i ht hs hexp hid
    rw [ht]
    simp [protectRoute, jwtVerify, hs, Nat.not_le.mpr hexp, hid]

/-- Witness for C4: each branch of the amended statement discharged at a
concrete token. -/
theorem c4_amended_validation_witness :
    protectRoute none "sec" 100 =
      .resp ⟨401, "Unauthorized - No token provided", none⟩ ∧
    protectRoute (some badSigTok) "sec" 100 =
      .resp ⟨403, "Forbidden access", none⟩ ∧
    protectRoute (some expiredTok) "sec" 100 =
      .resp ⟨403, "Forbidden access", none⟩ ∧
    protectRoute (some noIdTok) "sec" 100 =
      .resp ⟨403, "Unauthorized - Invalid token", none⟩ ∧
    protectRoute (some goodTok) "sec" 100 = .proceed 1 :=
  ⟨(c4_amended_validation none "sec" 100).1 rfl,
   (c4_amended_validation (some badSigTok) "sec" 100).2.1 badSigTok rfl
     (Or.inl (by decide)),
   (c4_amended_validation (some expiredTok) "sec" 100).2.1 expiredTok rfl
     (Or.inr (by decide)),
   (c4_amended_validation (some noIdTok) "sec" 100).2.2.1 noIdTok rfl rfl
     (by decide) rfl,
   (c4_amended_validation (some goodTok) "sec" 100).2.2.2 goodTok 1 rfl rfl
     (by decide) rfl⟩

/-- C5: after a successful Register, VerifyEmail with the exact issued code
before its 24-hour expiry answers 200 and leaves the account verified with
both verification fields cleared, and a second VerifyEmail with the same
code answers 400 "Invalid or expired verification token" — verification
succeeds exactly once. -/
theorem c5_verify_roundtrip (st : Store)
    (email password name verificationToken secret : String)
    (salt now now2 newId : Nat)
    (hfields : (email.isEmpty || password.isEmpty || name.isEmpty) = false)
    (hfresh : findByEmail st email = none)
    (hemail : email.length ≤ 50)
    (hname1 : 2 ≤ name.length) (hname2 : name.length ≤ 30)
    (htok : st.all (fun u => !(u.verificationToken == some verificationToken)) = true)
    (hnow : now2 < now + 24 * 60 * 60 * 1000) :
    (signup st email password name salt verificationToken secret now
        newId).response.status = 201 ∧
    (verifyEmail (signup st email password name salt verificationToken secret
        now newId).store verificationToken now2).response.status = 200 ∧
    ((verifyEmail (signup st email password name salt verificationToken secret
        now newId).store verificationToken now2).store.all
      (fun u => !(u.id == newId) ||
        (u.isVerified && u.verificationToken == none &&
          u.verificationTokenExpires == none))) = true ∧
    (verifyEmail (verifyEmail (signup st email password name salt
        verificationToken secret now newId).store verificationToken
        now2).store verificationToken now2).response.status = 400 ∧
    (verifyEmail (verifyEmail (signup st email password name salt
        verificationToken secret now newId).store verificationToken
        now2).store verificationToken now2).response.message =
      "Invalid or expired verification token" := by
  set N : Account := mkSignupUser email (bcryptHash salt password) name
    verificationToken now newId with hN
  have hvalid : schemaValid N = true := by
    simp only [hN, schemaValid, mkSignupUser, Bool.and_eq_true, decide_eq_true_eq]
    exact ⟨⟨hemail, hname1⟩, hname2⟩
  have hsig : signup st email password name salt verificationToken secret now newId =
      ⟨⟨201, "User registered successfully",
          some { (toClientDoc N) with
                 password := none,
                 verificationToken := none,
                 verificationTokenExpires := none }⟩,
        st ++ [N],
        [.setCookie (sessionTokenFor N secret now), .savedUser N,
          .emailSent "verification" N.email]⟩ := by
    simp only [signup, hfields, Bool.false_eq_true, if_false, hfresh,
      storeInsert, ← hN, hvalid, if_true]
  have hNq : verificationQuery verificationToken now2 N = true := by
    simp [verificationQuery, hN, mkSignupUser, hnow]
  have hstq : st.find? (verificationQuery verificationToken now2) = none := by
    rw [List.find?_eq_none]
    intro u hu
    have h := List.all_eq_true.mp htok u hu
    rw [Bool.not_eq_true'] at h
    simp [verificationQuery, h]
  have hfindN : findByVerificationToken (st ++ [N]) verificationToken now2 = some N := by
    unfold findByVerificationToken
    rw [List.find?_append, hstq, Option.none_or, List.find?_cons_of_pos _ hNq]
  set Nv : Account := { N with
                        isVerified := true,
                        verificationToken := none,
                        verificationTokenExpires := none } with hNv
  have hver : verifyEmail (st ++ [N]) verificationToken now2 =
      ⟨⟨200, "Email verified successfully",
          some { (toClientDoc Nv) with password := none }⟩,
        updateAccount (st ++ [N]) Nv,
        [.savedUser Nv, .emailSent "welcome" Nv.email]⟩ := by
    simp only [verifyEmail, hfindN, ← hNv]
  have hall3 : ((updateAccount (st ++ [N]) Nv).all
      (fun u => !(u.verificationToken == some verificationToken))) = true := by
    rw [List.all_eq_true]
    intro v hv
    rcases mem_updateAccount hv with rfl | ⟨hid, hmem⟩
    · simp [hNv]
    · rcases List.mem_append.mp hmem with h | h
      · exact List.all_eq_true.mp htok v h
      · rw [List.mem_singleton.mp h] at hid
        simp [hNv] at hid
  have hall4 : ((updateAccount (st ++ [N]) Nv).all
      (fun u => !(u.id == newId) ||
        (u.isVerified && u.verificationToken == none &&
          u.verificationTokenExpires == none))) = true := by
    rw [List.all_eq_true]
    intro v hv
    rcases mem_updateAccount hv with rfl | ⟨hid, hmem⟩
    · simp [hNv, hN, mkSignupUser]
    · have : (v.id == newId) = false := by
        have hNid : Nv.id = newId := by simp [hNv, hN, mkSignupUser]
        rw [← hNid]
        exact hid
      simp [this]
  have hfind2 : findByVerificationToken (updateAccount (st ++ [N]) Nv)
      verificationToken now2 = none := by
    unfold findByVerificationToken
    rw [List.find?_eq_none]
    intro u hu
    have h := List.all_eq_true.mp hall3 u hu
    rw [Bool.not_eq_true'] at h
    simp [verificationQuery, h]
  have hver2 : verifyEmail (updateAccount (st ++ [N]) Nv) verificationToken now2 =
      ⟨⟨400, "Invalid or expired verification token", none⟩,
        updateAccount (st ++ [N]) Nv, []⟩ := by
    simp only [verifyEmail, hfind2]
  rw [hsig]
  dsimp only
  rw [hver]
  dsimp only
  rw [hver2]
  exact ⟨rfl, rfl, hall4, rfl, rfl⟩

/-- Witness for C5: the round trip at a concrete registration. -/
theorem c5_verify_roundtrip_witness :
    (signup [] "a@x.com" "secret1" "Ann" 7 "123456" "sec" 0
        1).response.status = 201 ∧
    (verifyEmail (signup [] "a@x.com" "secret1" "Ann" 7 "123456" "sec" 0
        1).store "123456" 5).response.status = 200 ∧
    ((verifyEmail (signup [] "a@x.com" "secret1" "Ann" 7 "123456" "sec" 0
        1).store "123456" 5).store.all
      (fun u => !(u.id == 1) ||
        (u.isVerified && u.verificationToken == none &&
          u.verificationTokenExpires == none))) = true ∧
    (verifyEmail (verifyEmail (signup [] "a@x.com" "secret1" "Ann" 7 "123456"
        "sec" 0 1).store "123456" 5).store "123456" 5).response.status = 400 ∧
    (verifyEmail (verifyEmail (signup [] "a@x.com" "secret1" "Ann" 7 "123456"
        "sec" 0 1).store "123456" 5).store "123456" 5).response.message =
      "Invalid or expired verification token" :=
  c5_verify_roundtrip [] "a@x.com" "secret1" "Ann" "123456" "sec" 7 0 5 1
    (by decide) (by decide) (by decide) (by decide) (by decide) (by decide)
    (by decide)

/-- C6: ResetPassword with a pending, unexpired reset token but a password
shorter than 6 characters fails with 400 "Password must be at least 6
characters", performs no store access and leaves the store — hence the
reset token, its expiry and the password hash — unchanged, and a subsequent
ResetPassword with the same token and a valid password succeeds with 200. -/
theorem c6_short_reset_preserves_token (st : Store) (tok shortPwd goodPwd : String)
    (salt now : Nat) (u : Account)
    (hshort : shortPwd.length < 6)
    (hgood : (goodPwd.isEmpty || goodPwd.length < 6) = false)
    (hu : u ∈ st) (hq : resetQuery tok now u = true) :
    (resetPassword st tok shortPwd salt now).response.status = 400 ∧
    (resetPassword st tok shortPwd salt now).response.message =
      "Password must be at least 6 characters" ∧
    (resetPassword st tok shortPwd salt now).store = st ∧
    (resetPassword st tok shortPwd salt now).effects = [] ∧
    (resetPassword st tok goodPwd salt now).response.status = 200 := by
  have h400 : resetPassword st tok shortPwd salt now =
      ⟨⟨400, "Password must be at least 6 characters", none⟩, st, []⟩ := by
    unfold resetPassword
    rw [if_pos (by simp [hshort])]
  have hsome : (findByResetToken st tok now).isSome = true := by
    unfold findByResetToken
    rw [List.find?_isSome]
    exact ⟨u, hu, hq⟩
  obtain ⟨v, hv⟩ := Option.isSome_iff_exists.mp hsome
  have h200 : (resetPassword st tok goodPwd salt now).response.status = 200 := by
    unfold resetPassword
    rw [if_neg (by simp [hgood])]
    rw [hv]
  exact ⟨by rw [h400], by rw [h400], by rw [h400], by rw [h400], h200⟩

/-- Witness for C6: a 5-character then a valid reset at a concrete account. -/
theorem c6_short_reset_preserves_token_witness :
    (resetPassword [annReset] "abcd" "short" 9 100).response.status = 400 ∧
    (resetPassword [annReset] "abcd" "short" 9 100).response.message =
      "Password must be at least 6 characters" ∧
    (resetPassword [annReset] "abcd" "short" 9 100).store = [annReset] ∧
    (resetPassword [annReset] "abcd" "short" 9 100).effects = [] ∧
    (resetPassword [annReset] "abcd" "longenough1" 9 100).response.status = 200 :=
  c6_short_reset_preserves_token [annReset] "abcd" "short" "longenough1" 9 100
    annReset (by decide) (by decide) (by decide) (by decide)

/-- C7: a successful Login answers 200 and reports the new `lastLogin` in
its response body, yet the store after the request still holds the old
`lastLogin` — the assignment is never followed by a save, so the update is
not persisted; the unwired `login.controller.js` variant (`loginAlt`) of
the same repository does persist it, showing the persistence is the intent
and the missing save a slip. -/
theorem c7_lastlogin_not_persisted :
    (login [annPending] "a@x.com" "secret1" "sec" 500).response.status = 200 ∧
    ((login [annPending] "a@x.com" "secret1" "sec" 500).response.user.map
      (fun cu => cu.lastLogin)) = some 500 ∧
    (login [annPending] "a@x.com" "secret1" "sec" 500).store = [annPending] ∧
    ((findByEmail (login [annPending] "a@x.com" "secret1" "sec" 500).store
        "a@x.com").map (fun v => v.lastLogin)) = some 111 ∧
    ((findByEmail (loginAlt [annPending] "a@x.com" "secret1" "sec" 500).store
        "a@x.com").map (fun v => v.lastLogin)) = some 500 := by
  decide

theorem signup_store_cases (st : Store)
    (email password name verificationToken secret : String)
    (salt now newId : Nat) :
    (signup st email password name salt verificationToken secret now
        newId).store = st ∨
    (signup st email password name salt verificationToken secret now
        newId).store =
      st ++ [mkSignupUser email (bcryptHash salt password) name
              verificationToken now newId] := by
  unfold signup
  dsimp only
  split
  · left; rfl
  · split
    · left; rfl
    · split
      · left; rfl
      · rename_i st' heq
        right
        unfold storeInsert at heq
        split at heq
        · cases heq; rfl
        · cases heq

/-- C8: each lifecycle operation (Register, VerifyEmail, Login,
ForgotPassword, ResetPassword) preserves the invariant that on every
stored account the verification token and its expiry are both present or
both absent, and likewise the reset token and its expiry. -/
theorem c8_token_pairing (st : Store)
    (email password name verificationToken resetToken tok pwd secret : String)
    (salt now newId : Nat)
    (h : st.all tokenPairing = true) :
    (signup st email password name salt verificationToken secret now
        newId).store.all tokenPairing = true ∧
    (verifyEmail st verificationToken now).store.all tokenPairing = true ∧
    (login st email password secret now).store.all tokenPairing = true ∧
    (forgotPassword st email resetToken now).store.all tokenPairing = true ∧
    (resetPassword st tok pwd salt now).store.all tokenPairing = true := by
  refine ⟨?_, ?_, ?_, ?_, ?_⟩
  · rcases signup_store_cases st email password name verificationToken secret
        salt now newId with hc | hc
    · rw [hc]; exact h
    · rw [hc, List.all_append, h, Bool.true_and]
      rfl
  · cases hf : findByVerificationToken st verificationToken now with
    | none => simp only [verifyEmail, hf]; exact h
    | some u =>
      have hu : u ∈ st := List.mem_of_find?_eq_some hf
      have hpu := List.all_eq_true.mp h u hu
      simp only [tokenPairing, Bool.and_eq_true] at hpu
      obtain ⟨h1, h2⟩ := hpu
      have hver : verifyEmail st verificationToken now =
          ⟨⟨200, "Email verified successfully",
              some { (toClientDoc { u with
                        isVerified := true, verificationToken := none,
                        verificationTokenExpires := none }) with
                     password := none }⟩,
            updateAccount st { u with
                               isVerified := true, verificationToken := none,
                               verificationTokenExpires := none },
            [.savedUser { u with
                          isVerified := true, verificationToken := none,
                          verificationTokenExpires := none },
              .emailSent "welcome" u.email]⟩ := by
        simp only [verifyEmail, hf]
      rw [hver]
      exact all_updateAccount h (by simp [tokenPairing, h2])
  · unfold login
    dsimp only
    repeat' split
    all_goals exact h
  · cases hf : findByEmail st email with
    | none => simp only [forgotPassword, hf]; exact h
    | some u =>
      have hu : u ∈ st := List.mem_of_find?_eq_some hf
      have hpu := List.all_eq_true.mp h u hu
      simp only [tokenPairing, Bool.and_eq_true] at hpu
      obtain ⟨h1, h2⟩ := hpu
      have hfp : forgotPassword st email resetToken now =
          ⟨⟨200, "Password reset email sent", none⟩,
            updateAccount st { u with
                               resetPasswordToken := some resetToken,
                               resetPasswordExpires := some (now + 60 * 60 * 1000) },
            [.savedUser { u with
                          resetPasswordToken := some resetToken,
                          resetPasswordExpires := some (now + 60 * 60 * 1000) },
              .emailSent "passwordReset" u.email]⟩ := by
        simp only [forgotPassword, hf]
      rw [hfp]
      exact all_updateAccount h (by simp [tokenPairing, h1])
  · unfold resetPassword
    split
    · exact h
    · cases hf : findByResetToken st tok now with
      | none => simp only [hf]; exact h
      | some u =>
        have hu : u ∈ st := List.mem_of_find?_eq_some hf
        have hpu := List.all_eq_true.mp h u hu
        simp only [tokenPairing, Bool.and_eq_true] at hpu
        obtain ⟨h1, h2⟩ := hpu
        simp only [hf]
        exact all_updateAccount h (by simp [tokenPairing, h1])

/-- Witness for C8: the pairing invariant carried through every operation
at a concrete store. -/
theorem c8_token_pairing_witness :
    (signup [annPending] "b@x.com" "secret1" "Ann" 7 "654321" "sec" 500
        9).store.all tokenPairing = true ∧
    (verifyEmail [annPending] "654321" 500).store.all tokenPairing = true ∧
    (login [annPending] "a@x.com" "secret1" "sec" 500).store.all
      tokenPairing = true ∧
    (forgotPassword [annPending] "a@x.com" "rrrr" 500).store.all
      tokenPairing = true ∧
    (resetPassword [annPending] "abcd" "longenough1" 7 500).store.all
      tokenPairing = true :=
  c8_token_pairing [annPending] "b@x.com" "secret1" "Ann" "654321" "rrrr"
    "abcd" "longenough1" "sec" 7 500 9 (by decide)

/-- C9: no lifecycle operation (Register, VerifyEmail, Login, Logout,
ForgotPassword, ResetPassword) transitions any stored account from
`isVerified = true` back to `false` — verification is permanent, assuming
distinct store ids and a fresh id for the inserted account. -/
theorem c9_verified_monotone (st : Store)
    (email password name verificationToken resetToken tok pwd secret : String)
    (salt now newId : Nat)
    (hinj : ∀ a ∈ st, ∀ b ∈ st, a.id = b.id → a = b)
    (hfreshId : ∀ v ∈ st, (v.id == newId) = false) :
    preservesVerified st (signup st email password name salt verificationToken
        secret now newId).store = true ∧
    preservesVerified st (verifyEmail st verificationToken now).store = true ∧
    preservesVerified st (login st email password secret now).store = true ∧
    preservesVerified st (logout st).store = true ∧
    preservesVerified st (forgotPassword st email resetToken now).store = true ∧
    preservesVerified st (resetPassword st tok pwd salt now).store = true := by
  have hself := preservesVerified_self st hinj
  refine ⟨?_, ?_, ?_, ?_, ?_, ?_⟩
  · rcases signup_store_cases st email password name verificationToken secret
        salt now newId with hc | hc
    · rw [hc]; exact hself
    · rw [hc]
      exact preservesVerified_append st _ hinj hfreshId
  · cases hf : findByVerificationToken st verificationToken now with
    | none => simp only [verifyEmail, hf]; exact hself
    | some u =>
      have hu : u ∈ st := List.mem_of_find?_eq_some hf
      have hver : (verifyEmail st verificationToken now).store =
          updateAccount st { u with
                             isVerified := true, verificationToken := none,
                             verificationTokenExpires := none } := by
        simp only [verifyEmail, hf]
      rw [hver]
      exact preservesVerified_update st u _ hinj hu rfl (fun _ => rfl)
  · unfold login
    dsimp only
    repeat' split
    all_goals exact hself
  · exact hself
  · cases hf : findByEmail st email with
    | none => simp only [forgotPassword, hf]; exact hself
    | some u =>
      have hu : u ∈ st := List.mem_of_find?_eq_some hf
      have hfp : (forgotPassword st email resetToken now).store =
          updateAccount st { u with
                             resetPasswordToken := some resetToken,
                             resetPasswordExpires := some (now + 60 * 60 * 1000) } := by
        simp only [forgotPassword, hf]
      rw [hfp]
      exact preservesVerified_update st u _ hinj hu rfl (fun hh => hh)
  · unfold resetPassword
    split
    · exact hself
    · cases hf : findByResetToken st tok now with
      | none => simp only [hf]; exact hself
      | some u =>
        have hu : u ∈ st := List.mem_of_find?_eq_some hf
        simp only [hf]
        exact preservesVerified_update st u _ hinj hu rfl (fun hh => hh)

/-- Witness for C9: monotonicity of `isVerified` at a concrete store
holding a verified account. -/
theorem c9_verified_monotone_witness :
    preservesVerified [annReset] (signup [annReset] "b@x.com" "secret1" "Ann"
        7 "654321" "sec" 500 9).store = true ∧
    preservesVerified [annReset] (verifyEmail [annReset] "654321" 500).store = true ∧
    preservesVerified [annReset] (login [annReset] "a@x.com" "secret1" "sec"
        500).store = true ∧
    preservesVerified [annReset] (logout [annReset]).store = true ∧
    preservesVerified [annReset] (forgotPassword [annReset] "a@x.com" "rrrr"
        500).store = true ∧
    preservesVerified [annReset] (resetPassword [annReset] "abcd"
        "longenough1" 7 500).store = true :=
  c9_verified_monotone [annReset] "b@x.com" "secret1" "Ann" "654321" "rrrr"
    "abcd" "longenough1" "sec" 7 500 9 (by decide) (by decide)

/-- C10: once the body fields are present and the duplicate-email check has
passed, Register sets the session cookie as its first side effect — before
the store insert — so when the insert fails (schema validation), the caller
receives a 400 error and the store is unchanged, yet the cookie side effect
has already occurred: Register is not atomic with respect to session-token
issuance. -/
theorem c10_cookie_before_insert (st : Store)
    (email password name verificationToken secret : String)
    (salt now newId : Nat)
    (hfields : (email.isEmpty || password.isEmpty || name.isEmpty) = false)
    (hfresh : findByEmail st email = none) :
    ((signup st email password name salt verificationToken secret now
        newId).effects.head? =
      some (.setCookie (sessionTokenFor (mkSignupUser email
        (bcryptHash salt password) name verificationToken now newId)
        secret now))) ∧
    (schemaValid (mkSignupUser email (bcryptHash salt password) name
        verificationToken now newId) = false →
      (signup st email password name salt verificationToken secret now
          newId).response.status = 400 ∧
      (signup st email password name salt verificationToken secret now
          newId).store = st ∧
      (signup st email password name salt verificationToken secret now
          newId).effects =
        [.setCookie (sessionTokenFor (mkSignupUser email
          (bcryptHash salt password) name verificationToken now newId)
          secret now)]) := by
  constructor
  · simp only [signup, hfields, Bool.false_eq_true, if_false, hfresh]
    split
    · rfl
    · rfl
  · intro hbad
    have hverr : storeInsert st (mkSignupUser email (bcryptHash salt password)
        name verificationToken now newId) = .validationError := by
      unfold storeInsert
      rw [if_neg (by simp [hbad])]
    simp only [signup, hfields, Bool.false_eq_true, if_false, hfresh, hverr]
    simp

/-- Witness for C10: a concrete Register whose document fails schema
validation (1-character name) — 400 response, unchanged store, cookie
already set. -/
theorem c10_cookie_before_insert_witness :
    ((signup [] "a@x.com" "secret1" "Z" 7 "123456" "sec" 0 1).effects.head? =
      some (.setCookie (sessionTokenFor (mkSignupUser "a@x.com"
        (bcryptHash 7 "secret1") "Z" "123456" 0 1) "sec" 0))) ∧
    (signup [] "a@x.com" "secret1" "Z" 7 "123456" "sec" 0 1).response.status = 400 ∧
    (signup [] "a@x.com" "secret1" "Z" 7 "123456" "sec" 0 1).store = [] ∧
    (signup [] "a@x.com" "secret1" "Z" 7 "123456" "sec" 0 1).effects =
      [.setCookie (sessionTokenFor (mkSignupUser "a@x.com"
        (bcryptHash 7 "secret1") "Z" "123456" 0 1) "sec" 0)] := by
  have h := c10_cookie_before_insert [] "a@x.com" "secret1" "Z" "123456" "sec"
    7 0 1 (by decide) rfl
  exact ⟨h.1, (h.2 (by decide)).1, (h.2 (by decide)).2.1, (h.2 (by decide)).2.2⟩

end AuthService
